import Mathlib

/-!
Verification of the pyedb-core client layer: session lifecycle, stub
dispatch through the gRPC interceptor, read-only layer views, and the
rpc-info generation step.  Pure client logic is embedded shallowly; the
parts of the package whose implementation files are not in the tree
(the session module, the marshaling helper bodies, the rpc-info
generator) are modelled from the written specification, as marked on
each definition.
-/

namespace PyEDB

/-! ## Session manager model -/

/-- A gRPC channel endpoint, identified by host and TCP port. -/
structure Channel where
  host : String
  port : Nat
deriving DecidableEq, Repr

/-- Failure modes of launching a session, modelled from the spec:
the executable cannot be found, the process cannot be started, the
spawned process terminates early (carrying its exit code), or the
channel cannot be established within the connection timeout. -/
inductive LaunchError where
  | executableNotFound
  | startFailed
  | earlyTermination (exitCode : Int)
  | connectTimeout
deriving DecidableEq, Repr

/-- The environment a launch runs in: whether the server executable is
present under the given server root, whether the OS starts it
successfully, whether it exits before the channel comes up and with
which code, whether the channel handshake completes within the
connection timeout, and the pid the OS would assign. -/
structure LaunchEnv where
  executableFound : Bool
  processStarts : Bool
  processExitsEarly : Bool
  exitCode : Int
  channelConnects : Bool
  serverPid : Nat
deriving DecidableEq, Repr

/-- Handle to a locally spawned server process: its pid and the TCP
port the executable was told to listen on. -/
structure ServerProc where
  pid : Nat
  boundPort : Nat
deriving DecidableEq, Repr

/-- Modelled from the spec: the client-side Session object of the
absent session module.  It owns at most one channel and at most one
handle to a locally spawned server process. -/
structure Session where
  channel : Option Channel
  local_server_proc : Option ServerProc
deriving DecidableEq, Repr

/-- Modelled from the spec: launch_session of the absent session
module.  With a server root, it launches the server executable bound
to the requested port and then opens a channel to it; without one, it
spawns nothing and opens a channel to an already-listening server at
localhost on the requested port.  Failures yield the corresponding
LaunchError. -/
def launch_session (env : LaunchEnv) (server_root : Option String) (port : Nat) :
    Except LaunchError Session :=
  match server_root with
  | some _ =>
    if env.executableFound = false then Except.error LaunchError.executableNotFound
    else if env.processStarts = false then Except.error LaunchError.startFailed
    else if env.processExitsEarly = true then
      Except.error (LaunchError.earlyTermination env.exitCode)
    else if env.channelConnects = false then Except.error LaunchError.connectTimeout
    else Except.ok
      { channel := some { host := "localhost", port := port },
        local_server_proc := some { pid := env.serverPid, boundPort := port } }
  | none =>
    if env.channelConnects = false then Except.error LaunchError.connectTimeout
    else Except.ok
      { channel := some { host := "localhost", port := port },
        local_server_proc := none }

/-- Modelled from the spec: disconnect of the absent session module.
It terminates the locally spawned server process when one is owned and
closes the channel when one is open; both handles are dropped before
the call returns.  The function is total: disconnecting an
already-disconnected session performs no action and raises nothing. -/
def Session.disconnect (s : Session) : Session :=
  let s1 :=
    match s.local_server_proc with
    | some _ => { s with local_server_proc := none }
    | none => s
  match s1.channel with
  | some _ => { s1 with channel := none }
  | none => s1

/-- Number of channels a session currently holds open. -/
def Session.activeChannels (s : Session) : Nat :=
  match s.channel with
  | some _ => 1
  | none => 0

/-- Operations a caller can perform on a session after launch. -/
inductive SessionOp where
  | api_call
  | disconnect
deriving DecidableEq, Repr

/-- Applying one lifecycle operation to a session.  An API call leaves
the ownership state unchanged; disconnect releases the owned
resources. -/
def Session.applyOp (s : Session) (op : SessionOp) : Session :=
  match op with
  | SessionOp.api_call => s
  | SessionOp.disconnect => s.disconnect

/-- Applying a sequence of lifecycle operations from left to right. -/
def Session.applyOps (s : Session) (ops : List SessionOp) : Session :=
  ops.foldl Session.applyOp s

/-- An EDB API call issued through a session: when the session holds an
open channel the request is sent over exactly that channel and the
response of the server is returned; with no channel no call can be
made. -/
def Session.api_call (s : Session) (server : String → String) (method : String) :
    Option (Channel × String) :=
  match s.channel with
  | some ch => some (ch, server method)
  | none => none

/-! ## Stub dispatch and the client interceptor

Embedded from the code of interceptors.py and stackup_layer.py visible
in the tree: intercept_unary_unary runs the continuation on the call
details and request, hands the response to the post-processing hook,
and returns the response; StackupLayer.get_material builds one request
message from its arguments and issues one GetMaterial call on the
stackup-layer stub. -/

/-- A transport-level failure of a remote call. -/
inductive TransportError where
  | connectionRefused
  | deadlineExceeded
deriving DecidableEq, Repr

/-- The outcome of one unary call on the underlying channel: either a
response of the server or a transport-level error. -/
def Outcome (ρ : Type) : Type := Except TransportError ρ

instance (ρ : Type) [DecidableEq ρ] : DecidableEq (Outcome ρ) := fun a b =>
  match a, b with
  | Except.ok x, Except.ok y =>
    if h : x = y then isTrue (by rw [h]) else isFalse (by intro hc; cases hc; exact h rfl)
  | Except.error e, Except.error f =>
    if h : e = f then isTrue (by rw [h]) else isFalse (by intro hc; cases hc; exact h rfl)
  | Except.ok _, Except.error _ => isFalse (by intro hc; cases hc)
  | Except.error _, Except.ok _ => isFalse (by intro hc; cases hc)

/-- Observable events of one intercepted unary call: the continuation
being invoked on the channel with a request, and the post-processing
hook being applied to an outcome. -/
inductive CallEvent (σ ρ : Type) where
  | invoked (req : σ)
  | post_processed (resp : Outcome ρ)
deriving DecidableEq

/-- Embedded from interceptors.py (Interceptor.intercept_unary_unary):
the continuation is invoked once on the request, the resulting outcome
is passed to the post-processing hook, and that same outcome is
returned.  The event list records, in order, what the body does. -/
def intercept_unary_unary (continuation : σ → Outcome ρ) (request : σ) :
    Outcome ρ × List (CallEvent σ ρ) :=
  let response := continuation request
  (response, [CallEvent.invoked request, CallEvent.post_processed response])

/-- The requests the continuation was invoked with during a call. -/
def invokedRequests (events : List (CallEvent σ ρ)) : List σ :=
  events.filterMap (fun e =>
    match e with
    | CallEvent.invoked req => some req
    | CallEvent.post_processed _ => none)

/-- The outcomes the post-processing hook was applied to during a
call. -/
def postProcessedOutcomes (events : List (CallEvent σ ρ)) : List (Outcome ρ) :=
  events.filterMap (fun e =>
    match e with
    | CallEvent.invoked _ => none
    | CallEvent.post_processed resp => some resp)

/-- The protocol-buffer request message of the GetMaterial call: the
layer handle and the evaluated flag. -/
structure LayerMaterialNameMessage where
  layer_id : Nat
  evaluated : Bool
deriving DecidableEq, Repr

/-- Modelled from the spec: the marshaling helper of the absent
stackup_layer module, which shapes the two arguments of get_material
into one request message and does nothing else with them. -/
def get_layer_material_name_message (layer_id : Nat) (evaluated : Bool) :
    LayerMaterialNameMessage :=
  { layer_id := layer_id, evaluated := evaluated }

/-- Embedded from stackup_layer.py (StackupLayer.get_material): marshal
the arguments into one request message and issue one GetMaterial call
on the stackup-layer stub over the active channel; the call passes
through the client interceptor. -/
def StackupLayer.get_material (GetMaterial : LayerMaterialNameMessage → Outcome String)
    (layer_id : Nat) (evaluated : Bool) :
    Outcome String × List (CallEvent LayerMaterialNameMessage String) :=
  intercept_unary_unary GetMaterial (get_layer_material_name_message layer_id evaluated)

/-! ## Read-only layer views

Modelled from the user guide in the tree: an object added to the
database hierarchy is deep copied into its collection and afterwards
only accessible as an ILayerReadOnly object; read-only objects have a
Clone method allowing copy, modify, and replace of already added
objects. -/

/-- A layer as the client sees it before insertion: name and a
modifiable attribute standing for the mutable part of its state. -/
structure Layer where
  name : String
  thickness : Nat
deriving DecidableEq, Repr

/-- The layer collection of a cell, holding the deep copies of the
inserted layers. -/
structure LayerCollection where
  layers : List Layer
deriving DecidableEq, Repr

/-- Modelled from the spec: adding a layer deep copies it into the
collection and hands back the read-only handle (its index). -/
def LayerCollection.add_layer (c : LayerCollection) (l : Layer) :
    LayerCollection × Nat :=
  ({ layers := c.layers ++ [l] }, c.layers.length)

/-- The operations the ILayerReadOnly interface offers on an inserted
layer: the getters and Clone.  No mutator is part of the interface. -/
inductive ReadOnlyOp where
  | get_name
  | get_thickness
  | clone
deriving DecidableEq, Repr

/-- What one ILayerReadOnly operation observes: a string, a number, or
a fresh modifiable copy of the layer. -/
inductive ReadOnlyResult where
  | str (s : String)
  | num (n : Nat)
  | copy (l : Layer)
  | invalid_handle
deriving DecidableEq, Repr

/-- Modelled from the spec: dispatching one ILayerReadOnly operation on
the inserted layer at index i.  Every operation returns an observation
and leaves the collection as it is; Clone returns a modifiable copy. -/
def ILayerReadOnly.apply (c : LayerCollection) (i : Nat) (op : ReadOnlyOp) :
    LayerCollection × ReadOnlyResult :=
  match c.layers[i]? with
  | none => (c, ReadOnlyResult.invalid_handle)
  | some l =>
    match op with
    | ReadOnlyOp.get_name => (c, ReadOnlyResult.str l.name)
    | ReadOnlyOp.get_thickness => (c, ReadOnlyResult.num l.thickness)
    | ReadOnlyOp.clone => (c, ReadOnlyResult.copy l)

/-- Modelled from the spec: resubmitting a modified clone replaces the
already added layer at index i in the remote hierarchy. -/
def LayerCollection.resubmit (c : LayerCollection) (i : Nat) (l : Layer) :
    LayerCollection :=
  { layers := c.layers.set i l }

/-! ## Binding boilerplate generation

Modelled from the spec and from parse_protos.sh in the tree: the
rpc-info generator reads the proto interface definitions of the
separate ansys-api-edb repository and emits, per remote method, one
entry of stub metadata checked into the client; the script is run by a
developer and is not reachable from the runtime call path. -/

/-- One remote method as declared in a proto interface definition:
owning service, method name, request and response message types. -/
structure ProtoMethod where
  service : String
  method : String
  request_type : String
  response_type : String
deriving DecidableEq, Repr

/-- One entry of the generated stub metadata (rpc_info): the shaping
data the client needs to build the request and read the response of
one remote method. -/
structure RpcMethodInfo where
  service : String
  method : String
  request_type : String
  response_type : String
deriving DecidableEq, Repr

/-- Modelled from the spec: the generator step of parse_protos.sh,
emitting one stub metadata entry per proto method, carrying over the
declared signature unchanged. -/
def generate_rpc_info (protos : List ProtoMethod) : List RpcMethodInfo :=
  protos.map (fun p =>
    { service := p.service, method := p.method,
      request_type := p.request_type, response_type := p.response_type })

/-- The signature a generated stub metadata entry exposes, read back
in the vocabulary of the interface definitions. -/
def RpcMethodInfo.signature (m : RpcMethodInfo) : ProtoMethod :=
  { service := m.service, method := m.method,
    request_type := m.request_type, response_type := m.response_type }

/-! ## Client execution traces

Modelled from the spec: the observable events of one client process.
A launch opens a fresh channel, stub calls run over the channel of the
current session, disconnect closes it.  Generation of the binding
boilerplate is listed in the alphabet so that its absence from runtime
behavior is a provable statement: no transition emits it. -/

/-- Observable client events; channels carry the identifier they were
assigned when opened. -/
inductive Event where
  | launch (ch : Nat)
  | rpc (ch : Nat)
  | disconnect (ch : Nat)
  | generate_bindings
deriving DecidableEq, Repr

/-- The channel bookkeeping of the client: the channel of the current
session, when one is open, and the next fresh channel identifier. -/
structure ClientState where
  current : Option Nat
  nextCh : Nat
deriving DecidableEq, Repr

/-- The client state before any session is opened. -/
def ClientState.init : ClientState :=
  { current := none, nextCh := 0 }

/-- One runtime transition of the client.  A launch requires no open
session and opens a channel under a fresh identifier; an rpc runs over
the channel of the current session; a disconnect closes the channel of
the current session.  No transition emits generate_bindings. -/
inductive Step : ClientState → Event → ClientState → Prop where
  | launch (n : Nat) :
      Step { current := none, nextCh := n } (Event.launch n)
        { current := some n, nextCh := n + 1 }
  | rpc (c n : Nat) :
      Step { current := some c, nextCh := n } (Event.rpc c)
        { current := some c, nextCh := n }
  | disconnect (c n : Nat) :
      Step { current := some c, nextCh := n } (Event.disconnect c)
        { current := none, nextCh := n }

/-- A run of the client: a list of events taking one state to
another by chained transitions. -/
inductive Trace : ClientState → List Event → ClientState → Prop where
  | nil (s : ClientState) : Trace s [] s
  | cons {s s' s'' : ClientState} {e : Event} {es : List Event} :
      Step s e s' → Trace s' es s'' → Trace s (e :: es) s''

/-- Channel identifiers are within the fresh-identifier bound. -/
def ClientState.WF (s : ClientState) : Prop :=
  ∀ c : Nat, s.current = some c → c < s.nextCh

/-- Every transition preserves the fresh-identifier bound. -/
theorem Step.preserves_wf {s s' : ClientState} {e : Event}
    (h : Step s e s') (hw : s.WF) : s'.WF := by
  cases h with
  | launch n =>
    intro c hc
    have hnc : n = c := by simpa using hc
    show c < n + 1
    omega
  | rpc c n => exact hw
  | disconnect c n =>
    intro d hd
    simp at hd

/-- Every run preserves the fresh-identifier bound. -/
theorem Trace.propagates_wf {s s' : ClientState} {es : List Event}
    (h : Trace s es s') (hw : s.WF) : s'.WF := by
  induction h with
  | nil s => exact hw
  | cons hst _ ih => exact ih (hst.preserves_wf hw)

/-- No transition emits the binding-generation event. -/
theorem Step.ne_generate {s s' : ClientState} {e : Event}
    (h : Step s e s') : e ≠ Event.generate_bindings := by
  cases h <;> simp

/-- No run contains the binding-generation event. -/
theorem Trace.no_generate {s s' : ClientState} {es : List Event}
    (h : Trace s es s') : Event.generate_bindings ∉ es := by
  induction h with
  | nil s => simp
  | cons hst _ ih =>
    intro hmem
    rcases List.mem_cons.mp hmem with heq | htail
    · exact hst.ne_generate heq.symm
    · exact ih htail

/-- Once channel c is retired (its identifier is below the fresh
bound and it is not the current channel), no later event is an rpc
over c: launches only ever open channels with fresh identifiers. -/
theorem Trace.no_rpc_of_retired {s s' : ClientState} {es : List Event} (c : Nat)
    (h : Trace s es s') : c < s.nextCh → s.current ≠ some c → Event.rpc c ∉ es := by
  induction h with
  | nil s => intro _ _; simp
  | cons hst htr ih =>
    intro hlt hcur hmem
    rcases List.mem_cons.mp hmem with heq | htail
    · cases hst with
      | launch n => exact Event.noConfusion heq
      | rpc d n =>
        have hcd : c = d := by injection heq
        exact hcur (by rw [hcd])
      | disconnect d n => exact Event.noConfusion heq
    · cases hst with
      | launch n =>
        refine ih ?_ ?_ htail
        · have h1 : c < n := hlt
          show c < n + 1
          omega
        · intro hc
          have h1 : c < n := hlt
          have h2 : n = c := by simpa using hc
          omega
      | rpc d n => exact ih hlt hcur htail
      | disconnect d n =>
        refine ih ?_ ?_ htail
        · exact hlt
        · simp

/-- Splitting a run at a marked event into the run before, the
transition at the event, and the run after. -/
theorem Trace.split {s' : ClientState} :
    ∀ (es₁ : List Event) {s : ClientState} {e : Event} {es₂ : List Event},
    Trace s (es₁ ++ e :: es₂) s' →
    ∃ t t', Trace s es₁ t ∧ Step t e t' ∧ Trace t' es₂ s' := by
  intro es₁
  induction es₁ with
  | nil =>
    intro s e es₂ h
    cases h with
    | cons hst htr => exact ⟨s, _, Trace.nil s, hst, htr⟩
  | cons e₁ es₁' ih =>
    intro s e es₂ h
    cases h with
    | cons hst htr =>
      obtain ⟨t, t', h1, h2, h3⟩ := ih htr
      exact ⟨t, t', Trace.cons hst h1, h2, h3⟩

/-- The initial client state satisfies the fresh-identifier bound. -/
theorem ClientState.init_wf : ClientState.init.WF := by
  intro c hc
  simp [ClientState.init] at hc

/-! ## Claims -/

/-- Claim C1: launch_session with a non-None server root launches the
server executable bound to the requested port and opens a channel to
it; with server root None it launches no process and opens a channel
to the already-listening server at localhost on the requested port;
in both cases API calls on the resulting session are processed over
that channel. -/
theorem launch_session_opens_channel
    (env : LaunchEnv) (root : String) (port : Nat)
    (server : String → String) (method : String) :
    (∀ s : Session, launch_session env (some root) port = Except.ok s →
      s.local_server_proc = some { pid := env.serverPid, boundPort := port } ∧
      s.channel = some { host := "localhost", port := port } ∧
      s.api_call server method =
        some ({ host := "localhost", port := port }, server method)) ∧
    (∀ s : Session, launch_session env none port = Except.ok s →
      s.local_server_proc = none ∧
      s.channel = some { host := "localhost", port := port } ∧
      s.api_call server method =
        some ({ host := "localhost", port := port }, server method)) := by
  constructor <;> intro s h <;>
    · simp only [launch_session] at h
      repeat' split at h
      all_goals
        first
          | exact Except.noConfusion h
          | (injection h with h1; subst h1; simp [Session.api_call])

/-- Witness for claim C1 at a concrete environment, server root, and
port. -/
theorem launch_session_opens_channel_witness :
    (Session.mk (some (Channel.mk "localhost" 50051)) (some (ServerProc.mk 7 50051))).local_server_proc
        = some (ServerProc.mk 7 50051) ∧
    (Session.mk (some (Channel.mk "localhost" 50051)) (some (ServerProc.mk 7 50051))).channel
        = some (Channel.mk "localhost" 50051) ∧
    (Session.mk (some (Channel.mk "localhost" 50051)) (some (ServerProc.mk 7 50051))).api_call
        (fun _ => "copper") "GetMaterial" = some (Channel.mk "localhost" 50051, "copper") :=
  (launch_session_opens_channel (LaunchEnv.mk true true false 0 true 7) "srv" 50051
      (fun _ => "copper") "GetMaterial").1
    (Session.mk (some (Channel.mk "localhost" 50051)) (some (ServerProc.mk 7 50051))) rfl

/-- Claim C2: a Session holds at most one active channel at every
point of its lifetime, and an explicit disconnect releases the process
handle and the channel before it returns. -/
theorem session_single_channel_deterministic_release
    (s : Session) (ops : List SessionOp) :
    (Session.applyOps s ops).activeChannels ≤ 1 ∧
    (Session.disconnect s).channel = none ∧
    (Session.disconnect s).local_server_proc = none := by
  refine ⟨?_, ?_, ?_⟩
  · cases h : (Session.applyOps s ops).channel <;>
      simp [Session.activeChannels, h]
  · obtain ⟨ch, pr⟩ := s
    cases ch <;> cases pr <;> simp [Session.disconnect]
  · obtain ⟨ch, pr⟩ := s
    cases ch <;> cases pr <;> simp [Session.disconnect]

/-- Claim C3: disconnect is a total operation and a second consecutive
disconnect returns the session unchanged, so disconnecting an
already-disconnected session is a safe no-op. -/
theorem disconnect_idempotent_safe (s : Session) :
    Session.disconnect (Session.disconnect s) = Session.disconnect s := by
  obtain ⟨ch, pr⟩ := s
  cases ch <;> cases pr <;> simp [Session.disconnect]

/-- Claim C4: launch_session with a server root fails exactly when the
executable cannot be found, the process cannot be started, the process
terminates early (the error then carries its exit code), or the
channel cannot be established within the connection timeout; in a
fully healthy environment it returns a session holding a connected
channel. -/
theorem launch_session_error_characterization
    (env : LaunchEnv) (root : String) (port : Nat) :
    ((∃ e, launch_session env (some root) port = Except.error e) ↔
      (env.executableFound = false ∨ env.processStarts = false ∨
       env.processExitsEarly = true ∨ env.channelConnects = false)) ∧
    (env.executableFound = true → env.processStarts = true →
      env.processExitsEarly = true →
      launch_session env (some root) port =
        Except.error (LaunchError.earlyTermination env.exitCode)) ∧
    (env.executableFound = true → env.processStarts = true →
      env.processExitsEarly = false → env.channelConnects = true →
      launch_session env (some root) port =
        Except.ok { channel := some { host := "localhost", port := port },
                    local_server_proc :=
                      some { pid := env.serverPid, boundPort := port } }) := by
  obtain ⟨ef, ps, pe, ec, cc, pid⟩ := env
  cases ef <;> cases ps <;> cases pe <;> cases cc <;> simp [launch_session]

/-- Witness for claim C4 at a concrete healthy environment. -/
theorem launch_session_error_characterization_witness :
    launch_session (LaunchEnv.mk true true false 0 true 7) (some "srv") 50051 =
      Except.ok { channel := some { host := "localhost", port := 50051 },
                  local_server_proc := some { pid := 7, boundPort := 50051 } } :=
  (launch_session_error_characterization (LaunchEnv.mk true true false 0 true 7)
      "srv" 50051).2.2 rfl rfl rfl rfl

/-- Claim C5: a stub method call (StackupLayer.get_material) marshals
its arguments into one request message, issues exactly one remote
invocation over the channel carrying exactly that message, and returns
the response of the server; the arguments undergo no other client-side
computation. -/
theorem get_material_one_marshal_one_rpc
    (server : LayerMaterialNameMessage → Outcome String)
    (layer_id : Nat) (evaluated : Bool) :
    invokedRequests (StackupLayer.get_material server layer_id evaluated).2 =
      [get_layer_material_name_message layer_id evaluated] ∧
    (StackupLayer.get_material server layer_id evaluated).1 =
      server (get_layer_material_name_message layer_id evaluated) := by
  constructor <;>
    simp [StackupLayer.get_material, intercept_unary_unary, invokedRequests,
      List.filterMap]

/-- Claim C6: a transport-level failure of a remote call is surfaced
to the caller exactly as the transport produced it; the interceptor
invokes the channel exactly once with the unmodified request, so there
is no retry, no recovery, and no client-side argument validation
before the error reaches the caller. -/
theorem transport_error_surfaced_no_retry {σ ρ : Type}
    (continuation : σ → Outcome ρ) (request : σ) (e : TransportError)
    (h : continuation request = Except.error e) :
    (intercept_unary_unary continuation request).1 = Except.error e ∧
    invokedRequests (intercept_unary_unary continuation request).2 = [request] := by
  constructor
  · simpa [intercept_unary_unary] using h
  · simp [intercept_unary_unary, invokedRequests, List.filterMap]

/-- Witness for claim C6 at a concrete always-refusing channel. -/
theorem transport_error_surfaced_no_retry_witness :
    (intercept_unary_unary
        (fun _ : Nat => (Except.error TransportError.connectionRefused : Outcome String))
        0).1 = Except.error TransportError.connectionRefused ∧
    invokedRequests (intercept_unary_unary
        (fun _ : Nat => (Except.error TransportError.connectionRefused : Outcome String))
        0).2 = [0] :=
  transport_error_surfaced_no_retry
    (fun _ : Nat => (Except.error TransportError.connectionRefused : Outcome String))
    0 TransportError.connectionRefused rfl

/-- Claim C7: a layer added to a LayerCollection is deep copied into
the collection; afterwards every operation of the read-only interface
leaves the collection unchanged, Clone hands back a modifiable copy,
and resubmitting a modified copy is what replaces the inserted
layer. -/
theorem inserted_layer_read_only (c : LayerCollection) (l l' : Layer) :
    ((c.add_layer l).1.layers[(c.add_layer l).2]? = some l) ∧
    (∀ op : ReadOnlyOp,
      (ILayerReadOnly.apply (c.add_layer l).1 (c.add_layer l).2 op).1 =
        (c.add_layer l).1) ∧
    ((ILayerReadOnly.apply (c.add_layer l).1 (c.add_layer l).2
        ReadOnlyOp.clone).2 = ReadOnlyResult.copy l) ∧
    (((c.add_layer l).1.resubmit (c.add_layer l).2 l').layers[(c.add_layer l).2]?
        = some l') := by
  have hget : (c.layers ++ [l])[c.layers.length]? = some l := by
    rw [List.getElem?_append_right (le_refl _)]
    simp
  refine ⟨?_, ?_, ?_, ?_⟩
  · exact hget
  · intro op
    cases op <;> simp [LayerCollection.add_layer, ILayerReadOnly.apply, hget]
  · simp [LayerCollection.add_layer, ILayerReadOnly.apply, hget]
  · simp only [LayerCollection.add_layer, LayerCollection.resubmit]
    rw [List.getElem?_set_self]
    simp

/-- Claim C8: regenerating the stub metadata from the proto interface
definitions is a round trip (the signature read back from every
generated entry is the defining proto method), and no runtime
transition of the client ever performs binding generation. -/
theorem rpc_info_round_trip_offline (protos : List ProtoMethod)
    {s s' : ClientState} {es : List Event} (h : Trace s es s') :
    (generate_rpc_info protos).map RpcMethodInfo.signature = protos ∧
    Event.generate_bindings ∉ es := by
  constructor
  · induction protos with
    | nil => rfl
    | cons p ps ih =>
      simp only [generate_rpc_info, List.map_cons] at ih ⊢
      rw [ih]
      rfl
  · exact h.no_generate

/-- Witness for claim C8 at a concrete proto method and a concrete
launch-call-disconnect run. -/
theorem rpc_info_round_trip_offline_witness :
    (generate_rpc_info
        [ProtoMethod.mk "StackupLayerService" "GetMaterial"
          "LayerMaterialNameMessage" "StringValue"]).map RpcMethodInfo.signature =
      [ProtoMethod.mk "StackupLayerService" "GetMaterial"
        "LayerMaterialNameMessage" "StringValue"] ∧
    Event.generate_bindings ∉
      [Event.launch 0, Event.rpc 0, Event.disconnect 0] :=
  rpc_info_round_trip_offline
    [ProtoMethod.mk "StackupLayerService" "GetMaterial"
      "LayerMaterialNameMessage" "StringValue"]
    (Trace.cons (Step.launch 0)
      (Trace.cons (Step.rpc 0 1)
        (Trace.cons (Step.disconnect 0 1)
          (Trace.nil { current := none, nextCh := 1 }))))

/-- Claim C9: in every run of the client from the initial state, after
a channel is disconnected no stub call is ever issued over it: no rpc
event over channel c follows the disconnect event of channel c. -/
theorem no_rpc_after_disconnect (es₁ es₂ : List Event) (c : Nat)
    (sf : ClientState)
    (h : Trace ClientState.init (es₁ ++ Event.disconnect c :: es₂) sf) :
    Event.rpc c ∉ es₂ := by
  obtain ⟨t, t', h1, h2, h3⟩ := Trace.split es₁ h
  have hwf : t.WF := h1.propagates_wf ClientState.init_wf
  cases h2 with
  | disconnect _ n =>
    have hc : c < n := hwf c rfl
    exact Trace.no_rpc_of_retired c h3 hc (by simp)

/-- Witness for claim C9 at a concrete run that disconnects channel 0
and then opens and uses a fresh channel. -/
theorem no_rpc_after_disconnect_witness :
    Event.rpc 0 ∉ [Event.launch 1, Event.rpc 1] :=
  no_rpc_after_disconnect [Event.launch 0] [Event.launch 1, Event.rpc 1] 0
    { current := some 1, nextCh := 2 }
    (Trace.cons (Step.launch 0)
      (Trace.cons (Step.disconnect 0 1)
        (Trace.cons (Step.launch 1)
          (Trace.cons (Step.rpc 1 2)
            (Trace.nil { current := some 1, nextCh := 2 })))))

/-- Claim C10: every unary response, for every continuation and every
request, is handed to the post-processing hook exactly once before
being returned to the caller: the post-processed outcomes of one
intercepted call are exactly the one returned outcome. -/
theorem response_post_processed_once {σ ρ : Type}
    (continuation : σ → Outcome ρ) (request : σ) :
    postProcessedOutcomes (intercept_unary_unary continuation request).2 =
      [(intercept_unary_unary continuation request).1] := by
  simp [intercept_unary_unary, postProcessedOutcomes, List.filterMap]

end PyEDB
